import Mathlib

/-! Shallow embedding of the BajajHackathon document-intelligence pipeline
(src/app/core/rag_handler.py, src/app/core/processing.py, src/app/api_main.py,
src/scripts/ingest.py), with external collaborators (HTTP, document loaders,
the embedding store and the LLM) modelled as explicit oracle parameters. -/

set_option maxRecDepth 8000

/-! ## String containment machinery -/

/-- Whether the first list is a prefix of the second (Boolean, executable). -/
def prefixChars : List Char → List Char → Bool
  | [], _ => true
  | _ :: _, [] => false
  | a :: as, b :: bs => a == b && prefixChars as bs

/-- Whether `needle` occurs contiguously somewhere inside the second list. -/
def occursChars (needle : List Char) : List Char → Bool
  | [] => prefixChars needle []
  | c :: t => prefixChars needle (c :: t) || occursChars needle t

/-- Whether `needle` occurs as a contiguous substring of `hay`. -/
def strOccurs (needle hay : String) : Bool :=
  occursChars needle.data hay.data

/-! ## Data model (langchain `Document`, the `PolicyDecision` schema of
src/app/core/rag_handler.py lines 15-19) -/

/-- A langchain document / text chunk: page content plus source metadata. -/
structure Document where
  pageContent : String
  metadata : List (String × String) := []
  deriving Repr, DecidableEq

/-- The structured answer schema `PolicyDecision` (rag_handler.py lines 15-19).
Python's `float` amount is modelled as a rational. -/
structure PolicyDecision where
  decision : String
  amount : ℚ
  justification : String
  source_clauses : List String
  deriving Repr, DecidableEq

/-- The value `get_structured_rag_response` hands back: either a bare
`{"error": msg}` dict or a `PolicyDecision.model_dump()` dict. -/
inductive RagResult where
  | errorResult (msg : String)
  | decisionResult (d : PolicyDecision)
  deriving Repr, DecidableEq

/-! ## The prompt template (rag_handler.py lines 33-60, verbatim) -/

/-- The part of the Python triple-quoted `template` before the `{context}`
placeholder, transcribed verbatim (including the leading newline and the
8-space indentation of the Python source). -/
def tmplA : String := "
        **Your Role:** You are a meticulous and impartial Insurance Claims Adjudicator.

        **Your Prime Directive:** Your analysis and decision must be based **exclusively** on the provided `CONTEXT`. You must not use any prior knowledge or make assumptions.

        **Your Strict Rules:**
        1.  **No External Knowledge:** If the `CONTEXT` does not contain the information needed to answer the `QUERY`, you MUST state that the information is not found.
        2.  **No Hallucinations:** Do not invent details, figures, or clauses. Adhere strictly to the provided text.

        **The Adjudication Process (Follow these steps precisely):**
        1.  **Analyze the Query:** Deconstruct the user's `QUERY` to understand the specific claim being made.
        2.  **Scan for Evidence:** Scour the `CONTEXT` to find the most relevant policy clauses that apply to the `QUERY`.
        3.  **Formulate Decision:** Based *only* on the evidence from Step 2, decide if the claim is 'Approved', 'Rejected', or if key 'Information Not Found'.
        4.  **Construct Justification:** Write a clear, step-by-step explanation for your decision, referencing the logic from the clauses you found. If information was not found, state exactly what was missing.
        5.  **Source Verbatim:** Compile a list of the exact, word-for-word `source_clauses` from the `CONTEXT` that you used in your analysis. If no clauses were used, provide an empty list.
        6.  **Final Output:** Assemble your findings into the required JSON format.

        --- CONTEXT ---
        "

/-- The part of the template between `{context}` and `{question}`. -/
def tmplB : String := "
        --- END CONTEXT ---

        --- QUERY ---
        "

/-- The part of the template between `{question}` and `{format_instructions}`. -/
def tmplC : String := "
        --- END QUERY ---

        Adhere to the process and provide your response in the specified JSON format.
        "

/-- The tail of the template after `{format_instructions}`. -/
def tmplD : String := "
        "

/-- `PromptTemplate` substitution: the template with `{format_instructions}`
(a partial variable), `{context}` and `{question}` filled in. -/
def buildPrompt (format_instructions context question : String) : String :=
  tmplA ++ context ++ tmplB ++ question ++ tmplC ++ format_instructions ++ tmplD

/-- The full `template` string of rag_handler.py lines 33-60: `buildPrompt`
applied to the three literal placeholders. -/
def ragPromptTemplate : String :=
  buildPrompt "{format_instructions}" "{context}" "{question}"

/-! ## Retrieval (vector_store.as_retriever(search_kwargs={"k": 5}) inside the
RetrievalQA "stuff" chain) -/

/-- Stable insertion into a list sorted by strictly descending score: the new
(later-inserted) element goes after every earlier element whose score is at
least as high (ties keep insertion order, §4.4 of the spec). -/
def insertDesc (score : Document → ℚ) (d : Document) : List Document → List Document
  | [] => [d]
  | e :: es => if score e ≥ score d then e :: insertDesc score d es else d :: e :: es

/-- Stable sort of the store's chunks by descending similarity score. -/
def sortDesc (score : Document → ℚ) : List Document → List Document
  | [] => []
  | d :: ds => insertDesc score d (sortDesc score ds)

/-- Top-k similarity search over the store: the k best-scoring chunks for the
query, ranked by descending score, ties by insertion order. -/
def retrieveTopK (score : Document → ℚ) (k : Nat) (docs : List Document) : List Document :=
  (sortDesc score docs).take k

/-- The "stuff" chain's context assembly: retrieved page contents joined with
the default document separator, a blank line. -/
def joinContext : List Document → String
  | [] => ""
  | [d] => d.pageContent
  | d :: rest => d.pageContent ++ "\n\n" ++ joinContext rest

/-! ## get_structured_rag_response (rag_handler.py lines 21-87) -/

/-- The external collaborators of `get_structured_rag_response`: the fixed
format instructions of the Pydantic parser, the similarity scoring used by the
retriever, the LLM invocation (the whole `qa_chain.invoke`, whose exceptions
line 80 catches) and the Pydantic output parsing (`parser.parse`, whose
failures line 80 also catches). -/
structure RagEnv where
  format_instructions : String
  score : String → Document → ℚ
  llm : String → Except String String
  parse : String → Except String PolicyDecision

/-- The prompt the chain sends to the LLM for a query against a store: the
template filled with the retrieved top-5 context and the question. -/
def ragPromptOf (env : RagEnv) (query : String) (docs : List Document) : String :=
  buildPrompt env.format_instructions
    (joinContext (retrieveTopK (env.score query) 5 docs)) query

/-- The fallback record built in the `except` branch (rag_handler.py
lines 82-87). -/
def ragFallback (e : String) : RagResult :=
  .decisionResult
    { decision := "Error"
      amount := 0
      justification := "An internal error occurred: " ++ e
      source_clauses := [] }

/-- One run of `get_structured_rag_response`: the returned dict together with
the prompt handed to the LLM (`none` when the LLM was never invoked). -/
structure RagRun where
  result : RagResult
  promptSent : Option String
  deriving Repr, DecidableEq

/-- `get_structured_rag_response` (rag_handler.py lines 21-87), with the
prompt actually sent to the LLM recorded.  `if not query` is the Python
falsiness test on a string, i.e. `query = ""`; a missing store is `none`
(a Chroma instance, even an empty one, is truthy).  Every failure of the
chain invocation or of the Pydantic parse is absorbed into `ragFallback`. -/
def rag_run (env : RagEnv) (query : String) (vector_store : Option (List Document)) : RagRun :=
  if query = "" then ⟨.errorResult "Query cannot be empty.", none⟩
  else
    match vector_store with
    | none => ⟨.errorResult "Vector store not found. Please process a document first.", none⟩
    | some docs =>
      let prompt := ragPromptOf env query docs
      match env.llm prompt with
      | .error e => ⟨ragFallback e, some prompt⟩
      | .ok raw =>
        match env.parse raw with
        | .error e => ⟨ragFallback e, some prompt⟩
        | .ok d => ⟨.decisionResult d, some prompt⟩

/-- The dict `get_structured_rag_response` returns to its caller. -/
def get_structured_rag_response (env : RagEnv) (query : String)
    (vector_store : Option (List Document)) : RagResult :=
  (rag_run env query vector_store).result

/-! ## download_and_process_document (src/app/core/processing.py lines 33-69) -/

/-- What became of the temporary file a run of
`download_and_process_document` creates. -/
inductive TempFileState where
  | notCreated
  | deleted
  | leaked
  deriving Repr, DecidableEq

/-- An HTTP response as `requests.get` delivers it. -/
structure HttpResponse where
  status : Nat
  content : String
  deriving Repr, DecidableEq

/-- External collaborators of `download_and_process_document`: the network
(`requests.get`, `none` on a `RequestException`), the per-extension loader
(`load_document` applied to the temporary file, keyed by the URL and the
downloaded content; `.error` when the loader raises, including the
unsupported-extension `ValueError`), and the text splitter
(`RecursiveCharacterTextSplitter(chunk_size=1200, chunk_overlap=200)`
.split_documents). -/
structure DownloadEnv where
  httpGet : String → Option HttpResponse
  loadDoc : String → String → Except String (List Document)
  splitDocs : List Document → List Document

/-- `download_and_process_document` (processing.py lines 33-69): the returned
chunk list, together with the fate of the temporary file.  `raise_for_status`
turns a 4xx/5xx status into a caught `RequestException`; the temporary file is
removed (line 53) only after `load_document` returns, so a loader exception
reaches the generic handler (line 67) with the file still on disk. -/
def download_and_process_document (env : DownloadEnv) (url : String) :
    List Document × TempFileState :=
  match env.httpGet url with
  | none => ([], .notCreated)
  | some resp =>
    if 400 ≤ resp.status then ([], .notCreated)
    else
      match env.loadDoc url resp.content with
      | .error _ => ([], .leaked)
      | .ok documents =>
        if documents = [] then ([], .deleted)
        else (env.splitDocs documents, .deleted)

/-! ## The batch API (src/app/api_main.py) -/

/-- `get_api_key` (api_main.py lines 37-44): `none` models a missing
Authorization header (`APIKeyHeader` with `auto_error=False`); the guard is
`if not api_key_header or api_key_header != f"Bearer {API_KEY}"`, raising a
401 `HTTPException`. -/
def get_api_key (API_KEY : String) (header : Option String) :
    Except (Nat × String) String :=
  if header.getD "" = "" ∨ header ≠ some ("Bearer " ++ API_KEY) then
    .error (401, "Could not validate credentials")
  else .ok (header.getD "")

/-- What the endpoint answers: an `HTTPException` with a status and detail, or
the `HackathonResponse` list of answer strings. -/
inductive ApiResult where
  | httpError (status : Nat) (detail : String)
  | success (answers : List String)
  deriving Repr, DecidableEq

/-- One run of the endpoint: its result and the URLs it handed to
`download_and_process_document` (empty when authorization failed first). -/
structure ApiRun where
  result : ApiResult
  downloadedUrls : List String
  deriving Repr, DecidableEq

/-- The collaborators of `run_document_query`: those of the document
downloader, those of the RAG handler, `Chroma.from_documents` (which may
raise), and Python's `"{:.2f}".format` float rendering. -/
structure ApiEnv where
  denv : DownloadEnv
  ragEnv : RagEnv
  buildStore : List Document → Except String (List Document)
  formatFloat : ℚ → String

/-- The answer-string formatting of api_main.py lines 98-107: an `{"error":}`
dict becomes an inline error string in that slot, a structured decision is
flattened to one line. -/
def formatAnswer (fmt : ℚ → String) (question : String) : RagResult → String
  | .errorResult e => "Error processing question '" ++ question ++ "': " ++ e
  | .decisionResult d =>
    "Decision: " ++ d.decision ++ ", Amount: " ++ fmt d.amount
      ++ ", Justification: " ++ d.justification

/-- The combined chunk list of a batch request (api_main.py lines 63-73):
every URL is downloaded in order and `all_chunks.extend(chunks)` is a no-op
for a document that yielded no chunks. -/
def apiChunks (env : ApiEnv) (documents : List String) : List Document :=
  (documents.map fun u => (download_and_process_document env.denv u).1).flatten

/-- `run_document_query` (api_main.py lines 55-112): the `Security` dependency
runs first; a batch with no processable document is a 400; a
`Chroma.from_documents` failure is a 500; otherwise each question is answered
independently against the shared store and formatted in input order. -/
def run_document_query (env : ApiEnv) (auth : Option String) (API_KEY : String)
    (documents questions : List String) : ApiRun :=
  match get_api_key API_KEY auth with
  | .error (s, d) => ⟨.httpError s d, []⟩
  | .ok _ =>
    let all_chunks := apiChunks env documents
    if all_chunks = [] then
      ⟨.httpError 400 "No documents could be processed from the provided URLs.", documents⟩
    else
      match env.buildStore all_chunks with
      | .error e => ⟨.httpError 500 ("Failed to create vector store: " ++ e), documents⟩
      | .ok store =>
        ⟨.success (questions.map fun q =>
            formatAnswer env.formatFloat q
              (get_structured_rag_response env.ragEnv q (some store))), documents⟩

/-! ## Bulk ingestion (src/scripts/ingest.py lines 67-101) -/

/-- The filesystem state the ingestion script touches: the listing of
`data/raw` and the persisted index at `data/vector_store/chromadb` (`none`
when no store exists there). -/
structure IngestState where
  rawFiles : List String
  persistedChunks : Option (List Document)
  deriving Repr, DecidableEq

/-- Observable side effects of one ingestion run, in order. -/
inductive IngestEvent where
  | removedOldStore
  | builtStore (chunkCount : Nat)
  deriving Repr, DecidableEq

/-- Collaborators of `main`: `load_documents_from_directory` over the raw
directory listing (per-file loader failures already absorbed inside it), and
the `RecursiveCharacterTextSplitter.split_documents` chunker. -/
structure IngestEnv where
  load : List String → List Document
  split : List Document → List Document

/-- The outcome of one run of `main`: the final filesystem state, the event
trace, and the reported chunk count (`none` when no document was loaded and
the script exited early). -/
structure IngestRun where
  finalState : IngestState
  events : List IngestEvent
  chunkCount : Option Nat
  deriving Repr, DecidableEq

/-- `main` of ingest.py lines 67-101: wipe any prior persisted store, load all
documents from the raw directory, exit early when none loaded, else split and
persist a fresh store, reporting the chunk count. -/
def ingestMain (env : IngestEnv) (s : IngestState) : IngestRun :=
  let wipeEvents := if s.persistedChunks.isSome then [IngestEvent.removedOldStore] else []
  let s₁ : IngestState := { rawFiles := s.rawFiles, persistedChunks := none }
  let documents := env.load s.rawFiles
  if documents = [] then ⟨s₁, wipeEvents, none⟩
  else
    let split_texts := env.split documents
    ⟨{ rawFiles := s.rawFiles, persistedChunks := some split_texts },
      wipeEvents ++ [IngestEvent.builtStore split_texts.length],
      some split_texts.length⟩

/-! ## The Chunker, modelled from the spec (claim C7) -/

/-- Modelled from the spec: the Chunker itself is
`RecursiveCharacterTextSplitter` from langchain, third-party code not present
under src/ (processing.py line 59 and ingest.py line 84 only configure it with
chunk_size 1200 and chunk_overlap 200).  Per spec §4.2 it is modelled as a
greedy splitter that emits chunks of at most `size` characters, consecutive
chunks sharing `overlap` characters; `fuel` bounds the recursion and is
instantiated with the text length. -/
def chunkTextFuel : Nat → Nat → Nat → List Char → List (List Char)
  | 0, _, _, text => [text]
  | fuel + 1, size, overlap, text =>
    if text.length ≤ size ∨ size ≤ overlap then [text]
    else text.take size :: chunkTextFuel fuel size overlap (text.drop (size - overlap))

/-- Modelled from the spec: the Chunker's chunk sequence for a text, with the
configured chunk size and overlap (see `chunkTextFuel`). -/
def chunkText (size overlap : Nat) (text : List Char) : List (List Char) :=
  chunkTextFuel text.length size overlap text

/-- Reconstruction of a text from chunks: the first chunk whole, then each
later chunk minus its leading `overlap` characters. -/
def joinChunks (overlap : Nat) : List (List Char) → List Char
  | [] => []
  | c :: cs => c ++ (cs.map (List.drop overlap)).flatten

/-- All pairs of consecutive elements of a list. -/
def adjacentPairs {α : Type} : List α → List (α × α)
  | a :: b :: rest => (a, b) :: adjacentPairs (b :: rest)
  | _ => []

/-! ## Concrete collaborator environments for evaluation -/

/-- A sample structured decision used by the concrete test environments. -/
def pdSample : PolicyDecision :=
  { decision := "Approved", amount := 100, justification := "ok", source_clauses := [] }

/-- A RAG environment whose LLM call and parse both succeed. -/
def envParseOk : RagEnv :=
  { format_instructions := "FI"
    score := fun _ _ => 0
    llm := fun _ => .ok "RAW"
    parse := fun _ => .ok pdSample }

/-- A RAG environment whose chain invocation raises. -/
def envLlmFail : RagEnv := { envParseOk with llm := fun _ => .error "boom" }

/-- A concrete document produced by the test loader. -/
def docA : Document := { pageContent := "policy text" }

/-- A download environment where the URL "u" succeeds and every other URL
fails with a network error. -/
def denvOk : DownloadEnv :=
  { httpGet := fun u => if u = "u" then some { status := 200, content := "body" } else none
    loadDoc := fun _ _ => .ok [docA]
    splitDocs := fun ds => ds }

/-- A batch-API environment whose store construction succeeds. -/
def apiEnvOk : ApiEnv :=
  { denv := denvOk
    ragEnv := envParseOk
    buildStore := fun chunks => .ok chunks
    formatFloat := fun _ => "0.00" }

/-- A batch-API environment whose store construction always raises. -/
def apiEnvStoreFail : ApiEnv := { apiEnvOk with buildStore := fun _ => .error "boom" }

/-- A download environment whose loader always raises (as the unsupported
extension ValueError of load_document, or any parser failure, does). -/
def denvLoadFail : DownloadEnv :=
  { httpGet := fun _ => some { status := 200, content := "body" }
    loadDoc := fun _ _ => .error "Unsupported file type: .xyz"
    splitDocs := fun ds => ds }

/-! ## Claims about the Answer Synthesizer -/

/-- C1: whenever the chain invocation or the Pydantic parse of steps 3-5
fails, get_structured_rag_response returns the fallback record with decision
"Error", amount 0.0, a justification describing the error and empty
source_clauses; being a total function into RagResult it propagates no
exception to the caller. -/
theorem C1_synthesizer_fallback (env : RagEnv) (query : String) (docs : List Document)
    (hq : query ≠ "") :
    (∀ e, env.llm (ragPromptOf env query docs) = .error e →
      get_structured_rag_response env query (some docs) =
        .decisionResult ⟨"Error", 0, "An internal error occurred: " ++ e, []⟩) ∧
    (∀ raw e, env.llm (ragPromptOf env query docs) = .ok raw →
      env.parse raw = .error e →
      get_structured_rag_response env query (some docs) =
        .decisionResult ⟨"Error", 0, "An internal error occurred: " ++ e, []⟩) := by
  constructor
  · intro e he
    simp [get_structured_rag_response, rag_run, hq, he, ragFallback]
  · intro raw e hr hp
    simp [get_structured_rag_response, rag_run, hq, hr, hp, ragFallback]

/-- Witness for C1 at a concretely failing LLM call. -/
theorem C1_synthesizer_fallback_witness :
    get_structured_rag_response envLlmFail "q" (some []) =
      .decisionResult ⟨"Error", 0, "An internal error occurred: boom", []⟩ :=
  (C1_synthesizer_fallback envLlmFail "q" [] (by decide)).1 "boom" rfl

/-- C2 counterexample: on the empty query the handler's error message is
"Query cannot be empty." with a trailing period, not the claimed exact string
"Query cannot be empty". -/
theorem C2_empty_query_counterexample :
    get_structured_rag_response envParseOk "" (some []) ≠
      RagResult.errorResult "Query cannot be empty" := by
  decide

/-- C2 (amended): for the empty query the handler returns the error record
whose message is "Query cannot be empty." and never invokes the LLM — no
prompt is built or sent. -/
theorem C2_empty_query_rejected (env : RagEnv) (vs : Option (List Document)) :
    rag_run env "" vs = ⟨.errorResult "Query cannot be empty.", none⟩ := by
  simp [rag_run]

/-- Python str.isspace-style whitespace characters. -/
def isSpaceChar (c : Char) : Bool :=
  c == ' ' || c == '\t' || c == '\n' || c == '\r' || c == '\x0b' || c == '\x0c'

/-- C9: the empty-query rejection fires exactly on the empty (falsy) query
string; a nonempty query consisting only of whitespace passes validation and
the pipeline proceeds to retrieval and the LLM call. -/
theorem C9_empty_check_is_falsiness (env : RagEnv) (vs : Option (List Document))
    (query : String) :
    ((rag_run env query vs).result = .errorResult "Query cannot be empty." ↔ query = "") ∧
    (∀ docs, query ≠ "" → query.data.all isSpaceChar = true →
      (rag_run env query (some docs)).promptSent = some (ragPromptOf env query docs)) := by
  constructor
  · constructor
    · intro h
      by_contra hq
      cases vs with
      | none => simp [rag_run, hq] at h
      | some docs =>
        cases hl : env.llm (ragPromptOf env query docs) with
        | error e => simp [rag_run, hq, hl, ragFallback] at h
        | ok raw =>
          cases hp : env.parse raw with
          | error e => simp [rag_run, hq, hl, hp, ragFallback] at h
          | ok d => simp [rag_run, hq, hl, hp] at h
    · intro h
      subst h
      simp [rag_run]
  · intro docs hq _
    cases hl : env.llm (ragPromptOf env query docs) with
    | error e => simp [rag_run, hq, hl]
    | ok raw =>
      cases hp : env.parse raw with
      | error e => simp [rag_run, hq, hl, hp]
      | ok d => simp [rag_run, hq, hl, hp]

/-- Witness for C9: the one-space query passes validation and a prompt is
sent to the LLM. -/
theorem C9_empty_check_is_falsiness_witness :
    (rag_run envParseOk " " (some [])).promptSent = some (ragPromptOf envParseOk " " []) :=
  (C9_empty_check_is_falsiness envParseOk (some []) " ").2 [] (by decide) (by decide)

/-- C4: a nonempty query against an index of zero chunks retrieves the empty
context, and the synthesizer still returns a structured decision record
rather than an error dict or an exception. -/
theorem C4_empty_index_ok (env : RagEnv) (query : String) (hq : query ≠ "") :
    retrieveTopK (env.score query) 5 [] = [] ∧
    ∃ d, get_structured_rag_response env query (some []) = .decisionResult d := by
  refine ⟨rfl, ?_⟩
  cases hl : env.llm (ragPromptOf env query []) with
  | error e =>
    refine ⟨⟨"Error", 0, "An internal error occurred: " ++ e, []⟩, ?_⟩
    simp [get_structured_rag_response, rag_run, hq, hl, ragFallback]
  | ok raw =>
    cases hp : env.parse raw with
    | error e =>
      refine ⟨⟨"Error", 0, "An internal error occurred: " ++ e, []⟩, ?_⟩
      simp [get_structured_rag_response, rag_run, hq, hl, hp, ragFallback]
    | ok d =>
      exact ⟨d, by simp [get_structured_rag_response, rag_run, hq, hl, hp]⟩

/-- Witness for C4 at a concrete query and environment. -/
theorem C4_empty_index_ok_witness :
    retrieveTopK (envParseOk.score "q") 5 [] = [] ∧
    ∃ d, get_structured_rag_response envParseOk "q" (some []) = .decisionResult d :=
  C4_empty_index_ok envParseOk "q" (by decide)

/-! ## Substring lemmas for the prompt-content claims -/

/-- A prefix of h is still a prefix after appending on the right. -/
theorem prefixChars_append {n h : List Char} (t : List Char)
    (hp : prefixChars n h = true) : prefixChars n (h ++ t) = true := by
  induction n generalizing h with
  | nil => simp [prefixChars]
  | cons a as ih =>
    cases h with
    | nil => simp [prefixChars] at hp
    | cons b bs =>
      simp [prefixChars] at hp ⊢
      exact ⟨hp.1, ih hp.2⟩

/-- The empty needle occurs in every haystack. -/
theorem occursChars_nil (l : List Char) : occursChars [] l = true := by
  cases l <;> simp [occursChars, prefixChars]

/-- Occurrence in h is preserved by appending on the right. -/
theorem occursChars_append_right {n h : List Char} (t : List Char)
    (ho : occursChars n h = true) : occursChars n (h ++ t) = true := by
  induction h with
  | nil =>
    have hn : n = [] := by
      cases n with
      | nil => rfl
      | cons a as => simp [occursChars, prefixChars] at ho
    subst hn
    exact occursChars_nil t
  | cons c cs ih =>
    simp [occursChars] at ho ⊢
    rcases ho with hp | ho
    · exact Or.inl (prefixChars_append t hp)
    · exact Or.inr (ih ho)

/-- Occurrence in t is preserved by prepending on the left. -/
theorem occursChars_append_left {n t : List Char} (h : List Char)
    (ho : occursChars n t = true) : occursChars n (h ++ t) = true := by
  induction h with
  | nil => simpa using ho
  | cons c cs ih =>
    simp [occursChars]
    exact Or.inr ih

/-- String-level: occurrence survives appending on the right. -/
theorem strOccurs_append_right (n a b : String) (h : strOccurs n a = true) :
    strOccurs n (a ++ b) = true := by
  unfold strOccurs at h ⊢
  rw [String.data_append]
  exact occursChars_append_right _ h

/-- String-level: occurrence survives prepending on the left. -/
theorem strOccurs_append_left (n a b : String) (h : strOccurs n b = true) :
    strOccurs n (a ++ b) = true := by
  unfold strOccurs at h ⊢
  rw [String.data_append]
  exact occursChars_append_left _ h

/-- Anything occurring in the fixed head of the template occurs in every
prompt the synthesizer builds, whatever the context, question and format
instructions. -/
theorem strOccurs_buildPrompt_of_tmplA {n : String} (h : strOccurs n tmplA = true)
    (fi ctx q : String) : strOccurs n (buildPrompt fi ctx q) = true := by
  unfold buildPrompt
  exact strOccurs_append_right _ _ _ (strOccurs_append_right _ _ _
    (strOccurs_append_right _ _ _ (strOccurs_append_right _ _ _
      (strOccurs_append_right _ _ _ (strOccurs_append_right _ _ _ h)))))

/-- C6 counterexample: a concrete prompt the synthesizer sends to the LLM
contains no "Sum Insured" underinsurance instruction at all. -/
theorem C6_prompt_counterexample :
    (rag_run envParseOk "q" (some [])).promptSent = some (buildPrompt "FI" "" "q") ∧
    strOccurs "Sum Insured" (buildPrompt "FI" "" "q") = false := by
  refine ⟨rfl, ?_⟩
  decide

/-- C6 (amended): the prompt sent to the LLM embeds the strict
exclusive-context adjudication instructions of the template (the adjudicator
role and the no-prior-knowledge prime directive), but no underinsurance rule:
neither "Sum Insured" nor the 85 percent threshold occurs anywhere in the
prompt template. -/
theorem C6_prompt_contract (env : RagEnv) (query : String) (docs : List Document)
    (hq : query ≠ "") :
    (rag_run env query (some docs)).promptSent = some (ragPromptOf env query docs) ∧
    strOccurs "You are a meticulous and impartial Insurance Claims Adjudicator."
      (ragPromptOf env query docs) = true ∧
    strOccurs "You must not use any prior knowledge or make assumptions."
      (ragPromptOf env query docs) = true ∧
    strOccurs "Sum Insured" ragPromptTemplate = false ∧
    strOccurs "85" ragPromptTemplate = false := by
  refine ⟨?_, ?_, ?_, ?_, ?_⟩
  · cases hl : env.llm (ragPromptOf env query docs) with
    | error e => simp [rag_run, hq, hl]
    | ok raw =>
      cases hp : env.parse raw with
      | error e => simp [rag_run, hq, hl, hp]
      | ok d => simp [rag_run, hq, hl, hp]
  · exact strOccurs_buildPrompt_of_tmplA (by decide) _ _ _
  · exact strOccurs_buildPrompt_of_tmplA (by decide) _ _ _
  · decide
  · decide

/-- Witness for C6 (amended) at a concrete query and store. -/
theorem C6_prompt_contract_witness :
    (rag_run envParseOk "q" (some [docA])).promptSent =
      some (ragPromptOf envParseOk "q" [docA]) ∧
    strOccurs "Sum Insured" ragPromptTemplate = false :=
  ⟨(C6_prompt_contract envParseOk "q" [docA] (by decide)).1,
   (C6_prompt_contract envParseOk "q" [docA] (by decide)).2.2.2.1⟩

/-! ## Claims about the batch API -/

/-- C10: authorization succeeds exactly on the header value
"Bearer " ++ API_KEY; any other header — missing, bare key, different casing
or spacing — is refused with a 401, and the endpoint then downloads nothing. -/
theorem C10_bearer_auth (API_KEY : String) (header : Option String) :
    ((∃ tok, get_api_key API_KEY header = .ok tok) ↔
      header = some ("Bearer " ++ API_KEY)) ∧
    (∀ env docs qs, header ≠ some ("Bearer " ++ API_KEY) →
      run_document_query env header API_KEY docs qs =
        ⟨.httpError 401 "Could not validate credentials", []⟩) := by
  have hb : ("Bearer " ++ API_KEY) ≠ "" := by
    intro h
    have hd := congrArg String.data h
    rw [String.data_append] at hd
    simp at hd
  constructor
  · constructor
    · rintro ⟨tok, htok⟩
      by_contra hne
      simp [get_api_key, hne] at htok
    · rintro rfl
      refine ⟨"Bearer " ++ API_KEY, ?_⟩
      simp [get_api_key, hb]
  · intro env docs qs hne
    simp [run_document_query, get_api_key, hne]

/-- Witness for C10: a missing Authorization header is refused with a 401
before any document is downloaded. -/
theorem C10_bearer_auth_witness :
    run_document_query apiEnvOk none "k" ["u"] ["q"] =
      ⟨.httpError 401 "Could not validate credentials", []⟩ :=
  (C10_bearer_auth "k" none).2 apiEnvOk ["u"] ["q"] (by decide)

/-- C3 counterexample: with one URL producing chunks but the vector-store
construction failing, the endpoint answers a 500, not the claimed list of M
answers (and not a 400). -/
theorem C3_batch_counterexample :
    (download_and_process_document apiEnvStoreFail.denv "u").1 ≠ [] ∧
    run_document_query apiEnvStoreFail (some "Bearer k") "k" ["u"] ["q"] =
      ⟨.httpError 500 "Failed to create vector store: boom", ["u"]⟩ := by
  constructor
  · decide
  · decide

/-- C3 (amended): with a valid credential, a document that fails to download
or process is skipped without affecting the rest of the batch, the request is
a 400 exactly when zero documents produced chunks, and — provided the vector
store is built successfully; a store-construction failure is a 500 instead —
the endpoint returns exactly the M formatted answers in input order, a
per-question synthesizer error being rendered inline in its own slot. -/
theorem C3_batch_isolation (env : ApiEnv) (auth : Option String) (API_KEY : String)
    (docs qs : List String) (tok : String)
    (hauth : get_api_key API_KEY auth = .ok tok) :
    (∀ pre post u, (download_and_process_document env.denv u).1 = [] →
      (run_document_query env auth API_KEY (pre ++ u :: post) qs).result =
      (run_document_query env auth API_KEY (pre ++ post) qs).result) ∧
    ((run_document_query env auth API_KEY docs qs).result =
        .httpError 400 "No documents could be processed from the provided URLs."
      ↔ apiChunks env docs = []) ∧
    (∀ store, apiChunks env docs ≠ [] → env.buildStore (apiChunks env docs) = .ok store →
      (run_document_query env auth API_KEY docs qs).result =
        .success (qs.map fun q => formatAnswer env.formatFloat q
          (get_structured_rag_response env.ragEnv q (some store))) ∧
      (qs.map fun q => formatAnswer env.formatFloat q
          (get_structured_rag_response env.ragEnv q (some store))).length = qs.length) ∧
    (∀ q e, formatAnswer env.formatFloat q (.errorResult e) =
      "Error processing question '" ++ q ++ "': " ++ e) := by
  refine ⟨?_, ?_, ?_, ?_⟩
  · intro pre post u hdl
    have hchunks : apiChunks env (pre ++ u :: post) = apiChunks env (pre ++ post) := by
      simp [apiChunks, hdl]
    by_cases hc : apiChunks env (pre ++ post) = []
    · simp [run_document_query, hauth, hchunks, hc]
    · cases hbs : env.buildStore (apiChunks env (pre ++ post)) with
      | error e => simp [run_document_query, hauth, hchunks, hc, hbs]
      | ok store => simp [run_document_query, hauth, hchunks, hc, hbs]
  · by_cases hc : apiChunks env docs = []
    · simp [run_document_query, hauth, hc]
    · simp only [hc, iff_false]
      cases hbs : env.buildStore (apiChunks env docs) with
      | error e => simp [run_document_query, hauth, hc, hbs]
      | ok store => simp [run_document_query, hauth, hc, hbs]
  · intro store hc hbs
    constructor
    · simp [run_document_query, hauth, hc, hbs, get_structured_rag_response]
    · simp
  · intro q e
    rfl

/-- Witness for C3 (amended): one valid and one failing document, one
question, exactly one answer in its slot. -/
theorem C3_batch_isolation_witness :
    (run_document_query apiEnvOk (some "Bearer k") "k" ["u", "bad"] ["q"]).result =
      .success (["q"].map fun q => formatAnswer apiEnvOk.formatFloat q
        (get_structured_rag_response apiEnvOk.ragEnv q
          (some (apiChunks apiEnvOk ["u", "bad"])))) :=
  ((C3_batch_isolation apiEnvOk (some "Bearer k") "k" ["u", "bad"] ["q"] "Bearer k"
      (by rfl)).2.2.1 (apiChunks apiEnvOk ["u", "bad"]) (by decide) (by rfl)).1

/-! ## The temporary-file claim -/

/-- C5: at a URL whose download succeeds but whose loader raises — an
unsupported extension or a parse failure — the code returns [] with the
temporary file still on disk: os.remove (processing.py line 53) sits after
the load and before the except handlers, which do not delete the file, so
this exit path leaks it, against the every-exit-path deletion requirement. -/
theorem C5_temp_file_leaked :
    download_and_process_document denvLoadFail "http://x/doc.xyz" =
      ([], TempFileState.leaked) := by
  decide

/-! ## Chunker round-trip (claim C7) -/

/-- The chunker never returns an empty chunk list. -/
theorem chunkTextFuel_ne_nil (fuel size overlap : Nat) (text : List Char) :
    chunkTextFuel fuel size overlap text ≠ [] := by
  cases fuel with
  | zero => simp [chunkTextFuel]
  | succ f =>
    by_cases h : text.length ≤ size ∨ size ≤ overlap
    · simp [chunkTextFuel, h]
    · simp [chunkTextFuel, h]

/-- Dropping the overlap from every chunk and flattening yields the text
minus its first `overlap` characters, given enough fuel. -/
theorem chunkTextFuel_drop_flatten (size overlap : Nat) :
    ∀ fuel (text : List Char), text.length ≤ fuel →
      ((chunkTextFuel fuel size overlap text).map (List.drop overlap)).flatten =
        text.drop overlap := by
  intro fuel
  induction fuel with
  | zero =>
    intro text ht
    have hnil : text = [] := List.eq_nil_of_length_eq_zero (Nat.le_zero.mp ht)
    subst hnil
    simp [chunkTextFuel]
  | succ f ih =>
    intro text ht
    by_cases h : text.length ≤ size ∨ size ≤ overlap
    · simp [chunkTextFuel, h]
    · have hcond := h
      push_neg at h
      obtain ⟨hlen, hov⟩ := h
      simp only [chunkTextFuel]
      rw [if_neg hcond, List.map_cons, List.flatten_cons,
        ih (text.drop (size - overlap)) (by rw [List.length_drop]; omega),
        List.drop_take, List.drop_drop]
      have hsz : size - overlap + overlap = size := by omega
      rw [hsz]
      conv_rhs => rw [← List.take_append_drop (size - overlap) (List.drop overlap text)]
      rw [List.drop_drop]
      have hsz' : overlap + (size - overlap) = size := by omega
      rw [hsz']

/-- Round-trip of the fueled chunker. -/
theorem chunkTextFuel_roundtrip (size overlap : Nat) (fuel : Nat) (text : List Char)
    (ht : text.length ≤ fuel) :
    joinChunks overlap (chunkTextFuel fuel size overlap text) = text := by
  cases fuel with
  | zero =>
    have hnil : text = [] := List.eq_nil_of_length_eq_zero (Nat.le_zero.mp ht)
    subst hnil
    simp [chunkTextFuel, joinChunks]
  | succ f =>
    by_cases h : text.length ≤ size ∨ size ≤ overlap
    · simp [chunkTextFuel, h, joinChunks]
    · have hcond := h
      push_neg at h
      obtain ⟨hlen, hov⟩ := h
      simp only [chunkTextFuel]
      rw [if_neg hcond]
      rw [joinChunks]
      rw [chunkTextFuel_drop_flatten size overlap f _ (by rw [List.length_drop]; omega),
        List.drop_drop]
      have hsz : size - overlap + overlap = size := by omega
      rw [hsz, List.take_append_drop]

/-- The first chunk agrees with the text on the first `overlap` characters. -/
theorem chunkTextFuel_head_take (size overlap : Nat) (hov : overlap ≤ size)
    (fuel : Nat) (text : List Char) :
    ((chunkTextFuel fuel size overlap text).headD []).take overlap =
      text.take overlap := by
  cases fuel with
  | zero => simp [chunkTextFuel]
  | succ f =>
    by_cases h : text.length ≤ size ∨ size ≤ overlap
    · simp [chunkTextFuel, h]
    · simp only [chunkTextFuel]
      rw [if_neg h]
      simp [List.take_take, Nat.min_eq_left hov]

/-- Consecutive chunks of the fueled chunker share the configured overlap. -/
theorem chunkTextFuel_pairs (size overlap : Nat) :
    ∀ fuel (text : List Char), text.length ≤ fuel →
      ∀ p ∈ adjacentPairs (chunkTextFuel fuel size overlap text),
        p.1.drop (size - overlap) = p.2.take overlap := by
  intro fuel
  induction fuel with
  | zero =>
    intro text ht p hp
    simp [chunkTextFuel, adjacentPairs] at hp
  | succ f ih =>
    intro text ht p hp
    by_cases h : text.length ≤ size ∨ size ≤ overlap
    · simp [chunkTextFuel, h, adjacentPairs] at hp
    · have hcond := h
      push_neg at h
      obtain ⟨hlen, hov⟩ := h
      simp only [chunkTextFuel] at hp
      rw [if_neg hcond] at hp
      cases hcs : chunkTextFuel f size overlap (text.drop (size - overlap)) with
      | nil => exact absurd hcs (chunkTextFuel_ne_nil f size overlap _)
      | cons c cs =>
        rw [hcs] at hp
        simp [adjacentPairs] at hp
        rcases hp with rfl | hp
        · have hhead : c.take overlap = (text.drop (size - overlap)).take overlap := by
            have hh := chunkTextFuel_head_take size overlap (le_of_lt hov) f
              (text.drop (size - overlap))
            rw [hcs] at hh
            simpa using hh
          show (text.take size).drop (size - overlap) = c.take overlap
          rw [hhead, List.drop_take]
          have hsz : size - (size - overlap) = overlap := by omega
          rw [hsz]
        · exact ih (text.drop (size - overlap)) (by rw [List.length_drop]; omega) p
            (by rw [hcs]; exact hp)

/-- C7: the chunker round-trips — the first chunk and every later chunk's
non-overlapping tail concatenate back to the original text — and consecutive
chunks share the configured overlap: the trailing `overlap` characters of a
chunk are the leading `overlap` characters of the next. -/
theorem C7_chunk_roundtrip (size overlap : Nat) (text : List Char) :
    joinChunks overlap (chunkText size overlap text) = text ∧
    ∀ p ∈ adjacentPairs (chunkText size overlap text),
      p.1.drop (size - overlap) = p.2.take overlap :=
  ⟨chunkTextFuel_roundtrip size overlap text.length text le_rfl,
   chunkTextFuel_pairs size overlap text.length text le_rfl⟩

/-- Witness for C7: chunking "abcde" with size 3 and overlap 1 gives chunks
"abc", "cde"; they rebuild the text and share the one-character overlap. -/
theorem C7_chunk_roundtrip_witness :
    joinChunks 1 (chunkText 3 1 "abcde".data) = "abcde".data ∧
    List.drop (3 - 1) (['a', 'b', 'c'] : List Char) =
      List.take 1 (['c', 'd', 'e'] : List Char) :=
  ⟨(C7_chunk_roundtrip 3 1 "abcde".data).1,
   (C7_chunk_roundtrip 3 1 "abcde".data).2 (['a', 'b', 'c'], ['c', 'd', 'e']) (by decide)⟩

/-! ## Bulk ingestion (claim C8) -/

/-- A concrete ingestion environment for evaluation. -/
def ingestEnvT : IngestEnv :=
  { load := fun fs => if fs = [] then [] else [docA]
    split := fun ds => ds }

/-- A concrete starting state with a pre-existing persisted store. -/
def ingestStateT : IngestState :=
  { rawFiles := ["a.pdf"], persistedChunks := some [docA] }

/-- C8: ingestion wipes any prior persisted store before the new one is
built (every removal event precedes every build event), the rebuilt store
depends only on the input directory and not on the prior store, re-running
on the unchanged document set reports the same chunk count, and the reported
count is the size of the persisted store. -/
theorem C8_ingest_idempotent (env : IngestEnv) (s : IngestState) :
    ((ingestMain env (ingestMain env s).finalState).chunkCount =
      (ingestMain env s).chunkCount) ∧
    (∀ s', s'.rawFiles = s.rawFiles →
      (ingestMain env s').finalState.persistedChunks =
        (ingestMain env s).finalState.persistedChunks ∧
      (ingestMain env s').chunkCount = (ingestMain env s).chunkCount) ∧
    (∀ i j n : Nat, (ingestMain env s).events[i]? = some IngestEvent.removedOldStore →
      (ingestMain env s).events[j]? = some (IngestEvent.builtStore n) → i < j) ∧
    (∀ n, (ingestMain env s).chunkCount = some n →
      ∃ cs, (ingestMain env s).finalState.persistedChunks = some cs ∧ cs.length = n) := by
  by_cases hd : env.load s.rawFiles = []
  · refine ⟨?_, ?_, ?_, ?_⟩
    · simp [ingestMain, hd]
    · intro s' hs'
      have hd' : env.load s'.rawFiles = [] := by rw [hs']; exact hd
      simp [ingestMain, hd, hd', hs']
    · intro i j n hi hj
      exfalso
      cases hps : s.persistedChunks with
      | none => simp [ingestMain, hd, hps] at hj
      | some cs =>
        simp [ingestMain, hd, hps] at hj
        rcases j with _ | j <;> simp at hj
    · intro n hn
      simp [ingestMain, hd] at hn
  · refine ⟨?_, ?_, ?_, ?_⟩
    · simp [ingestMain, hd]
    · intro s' hs'
      simp [ingestMain, hd, hs', show env.load s'.rawFiles ≠ [] from hs' ▸ hd]
    · intro i j n hi hj
      cases hps : s.persistedChunks with
      | none =>
        simp [ingestMain, hd, hps] at hi
        rcases i with _ | i <;> simp at hi
      | some cs =>
        simp [ingestMain, hd, hps] at hi hj
        rcases i with _ | i
        · rcases j with _ | j
          · simp at hj
          · omega
        · rcases i with _ | i <;> simp at hi
    · intro n hn
      simp [ingestMain, hd] at hn ⊢
      omega

/-- Witness for C8: on a state with a prior store and one loadable file, the
removal event at index 0 precedes the build event at index 1. -/
theorem C8_ingest_idempotent_witness :
    (ingestMain ingestEnvT ingestStateT).events[0]? = some IngestEvent.removedOldStore ∧
    (ingestMain ingestEnvT ingestStateT).events[1]? = some (IngestEvent.builtStore 1) ∧
    (0 : Nat) < 1 :=
  ⟨by decide, by decide,
   (C8_ingest_idempotent ingestEnvT ingestStateT).2.2.1 0 1 1 (by decide) (by decide)⟩
